import Mathlib

/-!
Shallow embedding of the theme-switching logic of the AmetAlvirde/amet-alvirde
repository.

Three pieces of script are embedded:
- the interactive theme manager of src/utils/theme-manager.ts (three buttons:
  light / system / dark), namespace ThemeManager;
- the two-button variant (theme toggle + system button, sun/moon icons) that
  appears as related source in src/layouts/BaseLayout.astro, namespace
  TwoButton;
- the inline pre-paint bootstrap script of src/layouts/BaseLayout.astro,
  namespace Bootstrap.

Modelling conventions:
- Theme strings stay strings ("light", "dark", "system"), as in the
  JavaScript, so the truthiness-based fallbacks (a || b) are modelled
  faithfully by jsOrElse (null and the empty string are falsy).
- The OS colour-scheme signal is an `Option Bool`: `some b` means
  window.matchMedia is available and the query (prefers-color-scheme: light)
  has matches = b; `none` means window.matchMedia is undefined, where the
  optional chain window.matchMedia?.(...).matches yields undefined (falsy).
  The two-button variant calls window.matchMedia without the optional chain,
  so its functions take a plain `Bool` (they throw when matchMedia is
  undefined; no claim exercises that path).
- localStorage is a record: `available = false` means every access throws
  (private browsing); the guarded helpers swallow that, the unguarded
  localStorage.setItem of the two-button variant is an `Except`.
- The DOM state touched by the scripts is a record per variant: the two
  document-root attributes, the "active" class on each button, the "hidden"
  class on each icon, the monogram src, and the href of the non-media favicon
  link (`none` when that link element is absent from the document).
-/

/-- JavaScript truthiness fallback a || b for a : string | null:
null and the empty string are falsy. -/
def jsOrElse (a : Option String) (b : String) : String :=
  match a with
  | some s => if s = "" then b else s
  | none => b

/-- Client-local storage holding the single "theme" key; `available = false`
models an environment where every localStorage access throws. -/
structure Storage where
  available : Bool
  theme : Option String
deriving Repr, DecidableEq

namespace ThemeManager

/-- DOM state touched by the three-button manager: document-root attributes,
the "active" class on the three buttons, the monogram image src, and the
href of the non-media favicon link (none when that element is absent). -/
structure Dom where
  dataTheme : Option String
  dataThemePreference : Option String
  lightActive : Bool
  systemActive : Bool
  darkActive : Bool
  monogramSrc : String
  favicon : Option String
deriving Repr, DecidableEq

/-- safeLocalStorageGet: try localStorage.getItem, return null on exception. -/
def safeLocalStorageGet (storage : Storage) : Option String :=
  if storage.available then storage.theme else none

/-- safeLocalStorageSet: try localStorage.setItem, silent fail. -/
def safeLocalStorageSet (storage : Storage) (value : String) : Storage :=
  if storage.available then { storage with theme := some value } else storage

/-- getSystemTheme: window.matchMedia?.("(prefers-color-scheme: light)").matches
is true only when matchMedia is available and the query matches; otherwise the
chain is undefined or false, both falsy, giving "dark". -/
def getSystemTheme (env : Option Bool) : String :=
  match env with
  | some true => "light"
  | _ => "dark"

/-- getActualTheme: system resolves through the OS signal, an explicit
preference is returned as-is. -/
def getActualTheme (env : Option Bool) (preference : String) : String :=
  if preference = "system" then getSystemTheme env else preference

/-- getCurrentPreference: document attribute || safeLocalStorageGet("theme")
|| "system". -/
def getCurrentPreference (dom : Dom) (storage : Storage) : String :=
  jsOrElse dom.dataThemePreference (jsOrElse (safeLocalStorageGet storage) "system")

/-- getCurrentTheme: the data-theme attribute, possibly null. -/
def getCurrentTheme (dom : Dom) : Option String :=
  dom.dataTheme

/-- updateFavicon: query the non-media favicon link; when present set its
href from the resolved theme, when absent do nothing. -/
def updateFavicon (theme : String) (dom : Dom) : Dom :=
  let href := if theme = "light" then "/favicon-light-mode.svg" else "/favicon-dark-mode.svg"
  if dom.favicon.isSome then { dom with favicon := some href } else dom

/-- updateThemeIcons: set the monogram src from the resolved theme. -/
def updateThemeIcons (actualTheme : String) (dom : Dom) : Dom :=
  if actualTheme = "light" then
    { dom with monogramSrc := "monogram-light-mode.svg" }
  else
    { dom with monogramSrc := "monogram-dark-mode.svg" }

/-- updateButtonStates: remove "active" from all three buttons, then add it
to the button of the current preference (system is the fallback branch of the
nested ternary). -/
def updateButtonStates (preference : String) (dom : Dom) : Dom :=
  let cleared := { dom with lightActive := false, systemActive := false, darkActive := false }
  if preference = "light" then { cleared with lightActive := true }
  else if preference = "dark" then { cleared with darkActive := true }
  else { cleared with systemActive := true }

/-- updateDocumentAttributes: write data-theme and data-theme-preference on
the document root. -/
def updateDocumentAttributes (preference actualTheme : String) (dom : Dom) : Dom :=
  { dom with dataTheme := some actualTheme, dataThemePreference := some preference }

/-- updateThemeUI: resolve the preference, then update document attributes,
monogram, favicon and button states, in the order used in the source. -/
def updateThemeUI (env : Option Bool) (preference : String) (dom : Dom) : Dom :=
  let actualTheme := getActualTheme env preference
  updateButtonStates preference
    (updateFavicon actualTheme
      (updateThemeIcons actualTheme
        (updateDocumentAttributes preference actualTheme dom)))

/-- setLightTheme: persist "light" (silent fail), then synchronize the UI. -/
def setLightTheme (env : Option Bool) (storage : Storage) (dom : Dom) : Storage × Dom :=
  (safeLocalStorageSet storage "light", updateThemeUI env "light" dom)

/-- setSystemTheme: persist "system" (silent fail), then synchronize the UI. -/
def setSystemTheme (env : Option Bool) (storage : Storage) (dom : Dom) : Storage × Dom :=
  (safeLocalStorageSet storage "system", updateThemeUI env "system" dom)

/-- setDarkTheme: persist "dark" (silent fail), then synchronize the UI. -/
def setDarkTheme (env : Option Bool) (storage : Storage) (dom : Dom) : Storage × Dom :=
  (safeLocalStorageSet storage "dark", updateThemeUI env "dark" dom)

/-- The handler produced by createSystemChangeHandler: on an OS colour-scheme change event,
re-read the preference; only when it is "system" re-run updateThemeUI, with
`env` the OS signal at event time. -/
def systemChangeHandler (env : Option Bool) (storage : Storage) (dom : Dom) : Dom :=
  if getCurrentPreference dom storage = "system" then updateThemeUI env "system" dom else dom

/-- Which of the four required elements the DOM of the page actually contains
(the favicon link is looked up separately, by updateFavicon). -/
structure Presence where
  lightThemeButton : Bool
  systemThemeButton : Bool
  darkThemeButton : Bool
  monogram : Bool
deriving Repr, DecidableEq

/-- The names of the missing required elements, in object-entry order
(lightThemeButton, systemThemeButton, darkThemeButton, monogram). -/
def missingElements (p : Presence) : List String :=
  (if p.lightThemeButton then [] else ["lightThemeButton"]) ++
  (if p.systemThemeButton then [] else ["systemThemeButton"]) ++
  (if p.darkThemeButton then [] else ["darkThemeButton"]) ++
  (if p.monogram then [] else ["monogram"])

/-- getRequiredElements: throws when any required element is missing, with a
message joining the missing names. The element handles themselves live in
Dom, so success carries no data here. -/
def getRequiredElements (p : Presence) : Except String Unit :=
  if (missingElements p).length > 0 then
    Except.error ("Theme elements not found: " ++ String.intercalate ", " (missingElements p))
  else Except.ok ()

/-- setupEventListeners ends with an unguarded window.matchMedia call, which
throws when matchMedia is undefined; button listeners and the media-query
listener are attached only on the Ok path. -/
def setupEventListeners (env : Option Bool) : Except Unit Unit :=
  match env with
  | none => Except.error ()
  | some _ => Except.ok ()

/-- Outcome of initializeThemeManager: the resulting DOM state, the
console.error diagnostic when the try/catch caught something, and whether the
event listeners were attached. -/
structure InitResult where
  dom : Dom
  consoleError : Option String
  listenersAttached : Bool
deriving Repr, DecidableEq

/-- initializeThemeManager: look up the required elements, read the current
preference, synchronize the UI once, then attach listeners; any throw is
caught and logged with console.error, leaving the page as it was. -/
def initializeThemeManager (env : Option Bool) (storage : Storage) (p : Presence)
    (dom : Dom) : InitResult :=
  match getRequiredElements p with
  | Except.error e =>
    { dom := dom
      consoleError := some ("Failed to initialize theme manager: " ++ e)
      listenersAttached := false }
  | Except.ok _ =>
    let dom := updateThemeUI env (getCurrentPreference dom storage) dom
    match setupEventListeners env with
    | Except.error _ =>
      { dom := dom
        consoleError := some "Failed to initialize theme manager: TypeError"
        listenersAttached := false }
    | Except.ok _ =>
      { dom := dom, consoleError := none, listenersAttached := true }

end ThemeManager

namespace TwoButton

/-- DOM state touched by the two-button variant: document-root attributes,
the "active" class on the theme-toggle and system buttons, the "hidden" class
on the sun and moon icons, the monogram src, and the non-media favicon href. -/
structure Dom where
  dataTheme : Option String
  dataThemePreference : Option String
  themeToggleActive : Bool
  systemToggleActive : Bool
  sunHidden : Bool
  moonHidden : Bool
  monogramSrc : String
  favicon : Option String
deriving Repr, DecidableEq

/-- getSystemTheme, two-button variant: window.matchMedia is called without
the optional chain, so the OS signal is a plain Bool (the matches flag). -/
def getSystemTheme (matchesLight : Bool) : String :=
  if matchesLight then "light" else "dark"

/-- getActualTheme: same resolution rule as the three-button manager. -/
def getActualTheme (matchesLight : Bool) (preference : String) : String :=
  if preference = "system" then getSystemTheme matchesLight else preference

/-- getCurrentPreference, two-button variant: the document attribute or
"system" — there is no storage fallback here. -/
def getCurrentPreference (dom : Dom) : String :=
  jsOrElse dom.dataThemePreference "system"

/-- getCurrentTheme: the data-theme attribute, possibly null. -/
def getCurrentTheme (dom : Dom) : Option String :=
  dom.dataTheme

/-- updateFavicon: identical to the three-button variant. -/
def updateFavicon (theme : String) (dom : Dom) : Dom :=
  let href := if theme = "light" then "/favicon-light-mode.svg" else "/favicon-dark-mode.svg"
  if dom.favicon.isSome then { dom with favicon := some href } else dom

/-- updateThemeIcons, two-button variant: show the sun and hide the moon on
light (and vice versa on dark), and set the monogram src. -/
def updateThemeIcons (actualTheme : String) (dom : Dom) : Dom :=
  if actualTheme = "light" then
    { dom with sunHidden := false, moonHidden := true, monogramSrc := "monogram-light-mode.svg" }
  else
    { dom with sunHidden := true, moonHidden := false, monogramSrc := "monogram-dark-mode.svg" }

/-- updateButtonStates, two-button variant: clear both "active" classes, then
mark the system button when the preference is system, the toggle otherwise. -/
def updateButtonStates (preference : String) (dom : Dom) : Dom :=
  let cleared := { dom with themeToggleActive := false, systemToggleActive := false }
  if preference = "system" then { cleared with systemToggleActive := true }
  else { cleared with themeToggleActive := true }

/-- updateDocumentAttributes: write data-theme and data-theme-preference. -/
def updateDocumentAttributes (preference actualTheme : String) (dom : Dom) : Dom :=
  { dom with dataTheme := some actualTheme, dataThemePreference := some preference }

/-- updateThemeUI, two-button variant: resolve, then update attributes,
icons, favicon and button states. -/
def updateThemeUI (matchesLight : Bool) (preference : String) (dom : Dom) : Dom :=
  let actualTheme := getActualTheme matchesLight preference
  updateButtonStates preference
    (updateFavicon actualTheme
      (updateThemeIcons actualTheme
        (updateDocumentAttributes preference actualTheme dom)))

/-- localStorage.setItem without a guard: throws when storage is unavailable. -/
def localStorageSetItem (storage : Storage) (value : String) : Except Unit Storage :=
  if storage.available then Except.ok { storage with theme := some value } else Except.error ()

/-- toggleManualTheme: flip to the opposite of the current data-theme, persist
it with an UNGUARDED localStorage.setItem, then synchronize the UI; a storage
exception propagates out before updateThemeUI runs. -/
def toggleManualTheme (matchesLight : Bool) (storage : Storage) (dom : Dom) :
    Except Unit (Storage × Dom) :=
  let newTheme := if getCurrentTheme dom = some "light" then "dark" else "light"
  match localStorageSetItem storage newTheme with
  | Except.error e => Except.error e
  | Except.ok storage => Except.ok (storage, updateThemeUI matchesLight newTheme dom)

/-- setSystemTheme, two-button variant: persist "system" with an UNGUARDED
localStorage.setItem, then synchronize the UI. -/
def setSystemTheme (matchesLight : Bool) (storage : Storage) (dom : Dom) :
    Except Unit (Storage × Dom) :=
  match localStorageSetItem storage "system" with
  | Except.error e => Except.error e
  | Except.ok storage => Except.ok (storage, updateThemeUI matchesLight "system" dom)

/-- The handler produced by createSystemThemeChangeHandler: re-read the preference from the
document attribute; only when it is "system" re-run updateThemeUI against the
OS signal at event time. -/
def systemChangeHandler (matchesLight : Bool) (dom : Dom) : Dom :=
  if getCurrentPreference dom = "system" then updateThemeUI matchesLight "system" dom else dom

/-- Which of the five required elements the DOM of the page contains (again the
favicon link is not among them). -/
structure Presence where
  themeToggle : Bool
  systemThemeToggle : Bool
  sunIcon : Bool
  moonIcon : Bool
  monogram : Bool
deriving Repr, DecidableEq

/-- The names of the missing required elements, in object-entry order. -/
def missingElements (p : Presence) : List String :=
  (if p.themeToggle then [] else ["themeToggle"]) ++
  (if p.systemThemeToggle then [] else ["systemThemeToggle"]) ++
  (if p.sunIcon then [] else ["sunIcon"]) ++
  (if p.moonIcon then [] else ["moonIcon"]) ++
  (if p.monogram then [] else ["monogram"])

/-- getRequiredElements, two-button variant. -/
def getRequiredElements (p : Presence) : Except String Unit :=
  if (missingElements p).length > 0 then
    Except.error ("Theme elements not found: " ++ String.intercalate ", " (missingElements p))
  else Except.ok ()

/-- Outcome of the two-button initializeThemeManager. -/
structure InitResult where
  dom : Dom
  consoleError : Option String
  listenersAttached : Bool
deriving Repr, DecidableEq

/-- initializeThemeManager, two-button variant: required elements, then
updateThemeUI with getCurrentPreference (attribute only — storage is never
consulted), then listeners; throws are caught and logged. -/
def initializeThemeManager (matchesLight : Bool) (p : Presence) (dom : Dom) : InitResult :=
  match getRequiredElements p with
  | Except.error e =>
    { dom := dom
      consoleError := some ("Failed to initialize theme manager: " ++ e)
      listenersAttached := false }
  | Except.ok _ =>
    { dom := updateThemeUI matchesLight (getCurrentPreference dom) dom
      consoleError := none
      listenersAttached := true }

end TwoButton

namespace Bootstrap

/-- getStoredTheme: try localStorage.getItem("theme"), null on exception. -/
def getStoredTheme (storage : Storage) : Option String :=
  if storage.available then storage.theme else none

/-- The bootstrap preference: getStoredTheme() || "system". -/
def preference (storage : Storage) : String :=
  jsOrElse (getStoredTheme storage) "system"

/-- The bootstrap resolved theme: for "system" the inline script evaluates
window.matchMedia?.("(prefers-color-scheme: light)").matches, which is falsy
both when the query does not match and when matchMedia is undefined. -/
def actualTheme (env : Option Bool) (storage : Storage) : String :=
  if preference storage = "system" then
    (match env with
     | some true => "light"
     | _ => "dark")
  else preference storage

end Bootstrap

/-- The preference-reading precedence exactly as the specification words it
for initialization: the document attribute if set, else the persisted value,
else "system". Kept separate from the functions of the code so the two can be
compared. -/
def specInitPreference (attr stored : Option String) : String :=
  jsOrElse attr (jsOrElse stored "system")

/-- Helper: updateThemeUI writes the resolved theme into data-theme
(three-button manager). -/
theorem tm_updateThemeUI_dataTheme (env : Option Bool) (p : String)
    (dom : ThemeManager.Dom) :
    (ThemeManager.updateThemeUI env p dom).dataTheme
      = some (ThemeManager.getActualTheme env p) := by
  cases dom
  simp only [ThemeManager.updateThemeUI, ThemeManager.updateDocumentAttributes,
    ThemeManager.updateThemeIcons, ThemeManager.updateFavicon,
    ThemeManager.updateButtonStates]
  split_ifs <;> rfl

/-- Helper: updateThemeUI writes the preference into data-theme-preference
(three-button manager). -/
theorem tm_updateThemeUI_dataThemePreference (env : Option Bool) (p : String)
    (dom : ThemeManager.Dom) :
    (ThemeManager.updateThemeUI env p dom).dataThemePreference = some p := by
  cases dom
  simp only [ThemeManager.updateThemeUI, ThemeManager.updateDocumentAttributes,
    ThemeManager.updateThemeIcons, ThemeManager.updateFavicon,
    ThemeManager.updateButtonStates]
  split_ifs <;> rfl

/-- Helper: updateThemeUI writes the resolved theme into data-theme
(two-button variant). -/
theorem tb_updateThemeUI_dataTheme (s : Bool) (p : String)
    (dom : TwoButton.Dom) :
    (TwoButton.updateThemeUI s p dom).dataTheme
      = some (TwoButton.getActualTheme s p) := by
  cases dom
  simp only [TwoButton.updateThemeUI, TwoButton.updateDocumentAttributes,
    TwoButton.updateThemeIcons, TwoButton.updateFavicon,
    TwoButton.updateButtonStates]
  split_ifs <;> rfl

/-- Helper: updateThemeUI leaves an absent favicon link absent
(three-button manager). -/
theorem tm_updateThemeUI_favicon_none (env : Option Bool) (p : String)
    (dom : ThemeManager.Dom) (h : dom.favicon = none) :
    (ThemeManager.updateThemeUI env p dom).favicon = none := by
  cases dom
  simp only [ThemeManager.updateThemeUI, ThemeManager.updateDocumentAttributes,
    ThemeManager.updateThemeIcons, ThemeManager.updateFavicon,
    ThemeManager.updateButtonStates]
  split_ifs <;> simp_all

/-- Claim C1: for every preference P among "light", "dark", "system" and every
OS colour-scheme signal (matches-light flag s, so the signal is "light" when
s is true and "dark" otherwise), getActualTheme returns the signal when P is
"system" and returns P otherwise — in the three-button manager and in the
two-button variant alike. -/
theorem c1_getActualTheme_resolution (p : String) (s : Bool)
    (hp : p = "light" ∨ p = "dark" ∨ p = "system") :
    ThemeManager.getActualTheme (some s) p
      = (if p = "system" then (if s then "light" else "dark") else p) ∧
    TwoButton.getActualTheme s p
      = (if p = "system" then (if s then "light" else "dark") else p) := by
  rcases hp with h | h | h <;> subst h <;> cases s <;>
    simp [ThemeManager.getActualTheme, ThemeManager.getSystemTheme,
      TwoButton.getActualTheme, TwoButton.getSystemTheme]

/-- Witness for C1 at P = "system", S = light. -/
theorem c1_getActualTheme_resolution_witness :
    ("system" = "light" ∨ "system" = "dark" ∨ ("system" : String) = "system") ∧
    (ThemeManager.getActualTheme (some true) "system"
      = (if "system" = "system" then (if true then "light" else "dark") else "system") ∧
    TwoButton.getActualTheme true "system"
      = (if "system" = "system" then (if true then "light" else "dark") else "system")) :=
  ⟨Or.inr (Or.inr rfl),
    c1_getActualTheme_resolution "system" true (Or.inr (Or.inr rfl))⟩

/-- Claim C2: with the preference and the OS signal fixed, updateThemeUI is
idempotent on the whole DOM state (document attributes, active classes,
icon and monogram state, favicon href), in both variants. -/
theorem c2_updateThemeUI_idempotent (env : Option Bool) (s : Bool) (p : String)
    (dom : ThemeManager.Dom) (dom2 : TwoButton.Dom) :
    ThemeManager.updateThemeUI env p (ThemeManager.updateThemeUI env p dom)
      = ThemeManager.updateThemeUI env p dom ∧
    TwoButton.updateThemeUI s p (TwoButton.updateThemeUI s p dom2)
      = TwoButton.updateThemeUI s p dom2 := by
  constructor
  · cases dom
    simp only [ThemeManager.updateThemeUI, ThemeManager.updateDocumentAttributes,
      ThemeManager.updateThemeIcons, ThemeManager.updateFavicon,
      ThemeManager.updateButtonStates]
    split_ifs <;> simp_all
  · cases dom2
    simp only [TwoButton.updateThemeUI, TwoButton.updateDocumentAttributes,
      TwoButton.updateThemeIcons, TwoButton.updateFavicon,
      TwoButton.updateButtonStates]
    split_ifs <;> simp_all

/-- Claim C10: when window.matchMedia is undefined (OS signal `none`), the
optional chain yields undefined, so getSystemTheme returns "dark"; preference
"system" therefore resolves to "dark" in the manager and in the inline
bootstrap. -/
theorem c10_no_matchMedia_defaults_dark (storage : Storage)
    (h : Bootstrap.preference storage = "system") :
    ThemeManager.getSystemTheme none = "dark" ∧
    ThemeManager.getActualTheme none "system" = "dark" ∧
    Bootstrap.actualTheme none storage = "dark" := by
  refine ⟨rfl, rfl, ?_⟩
  simp [Bootstrap.actualTheme, h]

/-- Witness for C10 with the stored preference "system". -/
theorem c10_no_matchMedia_defaults_dark_witness :
    Bootstrap.preference { available := true, theme := some "system" } = "system" ∧
    (ThemeManager.getSystemTheme none = "dark" ∧
    ThemeManager.getActualTheme none "system" = "dark" ∧
    Bootstrap.actualTheme none { available := true, theme := some "system" } = "dark") :=
  ⟨by decide, c10_no_matchMedia_defaults_dark _ (by decide)⟩

/-- Claim C3: after updateThemeUI with preference P, exactly one button
carries the "active" class and it is the button of P itself (never of the
resolved theme): in the three-button manager the light/system/dark button
matches P exactly; in the two-button variant the system button is active
exactly when P is "system" and the toggle otherwise. -/
theorem c3_exactly_one_active (env : Option Bool) (s : Bool) (p : String)
    (dom : ThemeManager.Dom) (dom2 : TwoButton.Dom)
    (hp : p = "light" ∨ p = "dark" ∨ p = "system") :
    ((if (ThemeManager.updateThemeUI env p dom).lightActive then 1 else 0) +
     (if (ThemeManager.updateThemeUI env p dom).systemActive then 1 else 0) +
     (if (ThemeManager.updateThemeUI env p dom).darkActive then 1 else 0) = 1) ∧
    ((ThemeManager.updateThemeUI env p dom).lightActive ↔ p = "light") ∧
    ((ThemeManager.updateThemeUI env p dom).darkActive ↔ p = "dark") ∧
    ((ThemeManager.updateThemeUI env p dom).systemActive ↔ p = "system") ∧
    ((if (TwoButton.updateThemeUI s p dom2).themeToggleActive then 1 else 0) +
     (if (TwoButton.updateThemeUI s p dom2).systemToggleActive then 1 else 0) = 1) ∧
    ((TwoButton.updateThemeUI s p dom2).systemToggleActive ↔ p = "system") ∧
    ((TwoButton.updateThemeUI s p dom2).themeToggleActive ↔ p ≠ "system") := by
  rcases hp with h | h | h <;> subst h <;>
  · cases dom
    cases dom2
    simp [ThemeManager.updateThemeUI, ThemeManager.updateDocumentAttributes,
      ThemeManager.updateThemeIcons, ThemeManager.updateFavicon,
      ThemeManager.updateButtonStates, TwoButton.updateThemeUI,
      TwoButton.updateDocumentAttributes, TwoButton.updateThemeIcons,
      TwoButton.updateFavicon, TwoButton.updateButtonStates]

/-- Witness for C3 at P = "system" while the OS signal resolves it to dark
(the system button stays active even though the resolved theme is "dark"). -/
theorem c3_exactly_one_active_witness :
    (("system" : String) = "light" ∨ ("system" : String) = "dark" ∨
      ("system" : String) = "system") ∧
    (ThemeManager.updateThemeUI (some false) "system"
      { dataTheme := none, dataThemePreference := none, lightActive := true,
        systemActive := false, darkActive := true, monogramSrc := "",
        favicon := none }).systemActive = true :=
  ⟨Or.inr (Or.inr rfl),
    by
      have h := c3_exactly_one_active (some false) false "system"
        { dataTheme := none, dataThemePreference := none, lightActive := true,
          systemActive := false, darkActive := true, monogramSrc := "",
          favicon := none }
        { dataTheme := none, dataThemePreference := none,
          themeToggleActive := false, systemToggleActive := false,
          sunHidden := false, moonHidden := false, monogramSrc := "",
          favicon := none }
        (Or.inr (Or.inr rfl))
      exact (h.2.2.2.1).mpr rfl⟩

/-- Claim C4: after updateThemeUI, exactly one theme-specific visual variant
is selected: the monogram src is exactly the asset of the resolved theme (in
both variants), and in the two-button variant exactly one of the sun and moon
icons lacks the "hidden" class — the sun exactly when the resolved theme is
"light". -/
theorem c4_exclusive_visuals (env : Option Bool) (s : Bool) (p : String)
    (dom : ThemeManager.Dom) (dom2 : TwoButton.Dom)
    (hp : p = "light" ∨ p = "dark" ∨ p = "system") :
    ((ThemeManager.getActualTheme env p = "light" ∧
      (ThemeManager.updateThemeUI env p dom).monogramSrc = "monogram-light-mode.svg") ∨
     (ThemeManager.getActualTheme env p = "dark" ∧
      (ThemeManager.updateThemeUI env p dom).monogramSrc = "monogram-dark-mode.svg")) ∧
    (TwoButton.updateThemeUI s p dom2).sunHidden ≠ (TwoButton.updateThemeUI s p dom2).moonHidden ∧
    ((TwoButton.updateThemeUI s p dom2).sunHidden = false ↔
      TwoButton.getActualTheme s p = "light") ∧
    ((TwoButton.getActualTheme s p = "light" ∧
      (TwoButton.updateThemeUI s p dom2).monogramSrc = "monogram-light-mode.svg") ∨
     (TwoButton.getActualTheme s p = "dark" ∧
      (TwoButton.updateThemeUI s p dom2).monogramSrc = "monogram-dark-mode.svg")) := by
  rcases hp with h | h | h <;> subst h <;> cases s <;>
    rcases env with _ | b <;> (try cases b) <;>
  · cases dom
    cases dom2
    simp [ThemeManager.updateThemeUI, ThemeManager.updateDocumentAttributes,
      ThemeManager.updateThemeIcons, ThemeManager.updateFavicon,
      ThemeManager.updateButtonStates, ThemeManager.getActualTheme,
      ThemeManager.getSystemTheme, TwoButton.updateThemeUI,
      TwoButton.updateDocumentAttributes, TwoButton.updateThemeIcons,
      TwoButton.updateFavicon, TwoButton.updateButtonStates,
      TwoButton.getActualTheme, TwoButton.getSystemTheme]
    try (split_ifs <;> simp_all)

/-- Witness for C4 at P = "system" with the OS signal dark. -/
theorem c4_exclusive_visuals_witness :
    (("system" : String) = "light" ∨ ("system" : String) = "dark" ∨
      ("system" : String) = "system") ∧
    (TwoButton.updateThemeUI false "system"
      { dataTheme := none, dataThemePreference := none,
        themeToggleActive := false, systemToggleActive := false,
        sunHidden := false, moonHidden := false, monogramSrc := "",
        favicon := none }).monogramSrc = "monogram-dark-mode.svg" :=
  ⟨Or.inr (Or.inr rfl),
    by
      have h := c4_exclusive_visuals (some false) false "system"
        { dataTheme := none, dataThemePreference := none, lightActive := false,
          systemActive := false, darkActive := false, monogramSrc := "",
          favicon := none }
        { dataTheme := none, dataThemePreference := none,
          themeToggleActive := false, systemToggleActive := false,
          sunHidden := false, moonHidden := false, monogramSrc := "",
          favicon := none }
        (Or.inr (Or.inr rfl))
      rcases h.2.2.2 with h4 | h4
      · exact absurd h4.1 (by decide)
      · exact h4.2⟩

/-- Claim C5: the OS colour-scheme change handler re-reads the preference at
event time; when it is an explicit "light" or "dark" the handler changes
nothing, and exactly when it is "system" it re-runs updateThemeUI with
"system", so the written data-theme attribute equals the resolution of the
new OS signal — in both variants. -/
theorem c5_system_change_handler (env : Option Bool) (s : Bool)
    (storage : Storage) (dom : ThemeManager.Dom) (dom2 : TwoButton.Dom) :
    ((ThemeManager.getCurrentPreference dom storage = "light" ∨
      ThemeManager.getCurrentPreference dom storage = "dark") →
      ThemeManager.systemChangeHandler env storage dom = dom) ∧
    (ThemeManager.getCurrentPreference dom storage = "system" →
      ThemeManager.systemChangeHandler env storage dom
        = ThemeManager.updateThemeUI env "system" dom ∧
      (ThemeManager.systemChangeHandler env storage dom).dataTheme
        = some (ThemeManager.getSystemTheme env)) ∧
    ((TwoButton.getCurrentPreference dom2 = "light" ∨
      TwoButton.getCurrentPreference dom2 = "dark") →
      TwoButton.systemChangeHandler s dom2 = dom2) ∧
    (TwoButton.getCurrentPreference dom2 = "system" →
      TwoButton.systemChangeHandler s dom2 = TwoButton.updateThemeUI s "system" dom2 ∧
      (TwoButton.systemChangeHandler s dom2).dataTheme
        = some (TwoButton.getSystemTheme s)) := by
  refine ⟨?_, ?_, ?_, ?_⟩
  · rintro (h | h) <;>
      simp [ThemeManager.systemChangeHandler, h]
  · intro h
    refine ⟨by simp [ThemeManager.systemChangeHandler, h], ?_⟩
    simp [ThemeManager.systemChangeHandler, h, tm_updateThemeUI_dataTheme,
      ThemeManager.getActualTheme]
  · rintro (h | h) <;>
      simp [TwoButton.systemChangeHandler, h]
  · intro h
    refine ⟨by simp [TwoButton.systemChangeHandler, h], ?_⟩
    simp [TwoButton.systemChangeHandler, h, tb_updateThemeUI_dataTheme,
      TwoButton.getActualTheme]

/-- Witness for C5: with the attribute preference "light" the handler leaves
the DOM untouched, at a concrete state. -/
theorem c5_system_change_handler_witness :
    ThemeManager.systemChangeHandler (some true)
      { available := true, theme := some "dark" }
      { dataTheme := some "light", dataThemePreference := some "light",
        lightActive := true, systemActive := false, darkActive := false,
        monogramSrc := "monogram-light-mode.svg",
        favicon := some "/favicon-light-mode.svg" }
      = { dataTheme := some "light", dataThemePreference := some "light",
          lightActive := true, systemActive := false, darkActive := false,
          monogramSrc := "monogram-light-mode.svg",
          favicon := some "/favicon-light-mode.svg" } :=
  (c5_system_change_handler (some true) true
      { available := true, theme := some "dark" }
      { dataTheme := some "light", dataThemePreference := some "light",
        lightActive := true, systemActive := false, darkActive := false,
        monogramSrc := "monogram-light-mode.svg",
        favicon := some "/favicon-light-mode.svg" }
      { dataTheme := none, dataThemePreference := none,
        themeToggleActive := false, systemToggleActive := false,
        sunHidden := false, moonHidden := false, monogramSrc := "",
        favicon := none }).1 (Or.inl (by decide))

/-- Claim C6: when any required control element is missing,
initializeThemeManager raises no uncaught error (it is total and returns),
leaves the document state exactly as it was, attaches no listeners, and logs
one diagnostic built from the list of missing element names — a list that
contains precisely the names of the absent elements. -/
theorem c6_init_missing_element (env : Option Bool) (storage : Storage)
    (p : ThemeManager.Presence) (dom : ThemeManager.Dom)
    (h : p.lightThemeButton = false ∨ p.systemThemeButton = false ∨
      p.darkThemeButton = false ∨ p.monogram = false) :
    (ThemeManager.initializeThemeManager env storage p dom).dom = dom ∧
    (ThemeManager.initializeThemeManager env storage p dom).listenersAttached = false ∧
    (ThemeManager.initializeThemeManager env storage p dom).consoleError
      = some ("Failed to initialize theme manager: Theme elements not found: "
          ++ String.intercalate ", " (ThemeManager.missingElements p)) ∧
    ((p.lightThemeButton = false ↔ "lightThemeButton" ∈ ThemeManager.missingElements p) ∧
    (p.systemThemeButton = false ↔ "systemThemeButton" ∈ ThemeManager.missingElements p) ∧
    (p.darkThemeButton = false ↔ "darkThemeButton" ∈ ThemeManager.missingElements p) ∧
    (p.monogram = false ↔ "monogram" ∈ ThemeManager.missingElements p)) := by
  rcases p with ⟨a, b, c, d⟩
  cases a <;> cases b <;> cases c <;> cases d <;>
    first
      | exact ⟨rfl, rfl, rfl, by decide⟩
      | simp_all

/-- Witness for C6 with only the monogram missing. -/
theorem c6_init_missing_element_witness :
    ({ lightThemeButton := true, systemThemeButton := true,
       darkThemeButton := true, monogram := false } : ThemeManager.Presence).monogram
      = false ∧
    (ThemeManager.initializeThemeManager (some true)
      { available := true, theme := some "dark" }
      { lightThemeButton := true, systemThemeButton := true,
        darkThemeButton := true, monogram := false }
      { dataTheme := some "dark", dataThemePreference := some "dark",
        lightActive := false, systemActive := false, darkActive := true,
        monogramSrc := "monogram-dark-mode.svg",
        favicon := some "/favicon-dark-mode.svg" }).dom
      = { dataTheme := some "dark", dataThemePreference := some "dark",
          lightActive := false, systemActive := false, darkActive := true,
          monogramSrc := "monogram-dark-mode.svg",
          favicon := some "/favicon-dark-mode.svg" } :=
  ⟨rfl,
    (c6_init_missing_element (some true)
      { available := true, theme := some "dark" }
      { lightThemeButton := true, systemThemeButton := true,
        darkThemeButton := true, monogram := false }
      { dataTheme := some "dark", dataThemePreference := some "dark",
        lightActive := false, systemActive := false, darkActive := true,
        monogramSrc := "monogram-dark-mode.svg",
        favicon := some "/favicon-dark-mode.svg" }
      (Or.inr (Or.inr (Or.inr rfl)))).1⟩

/-- Claim C7 counterexample: in the two-button variant the toggle and the
system selection persist with an UNGUARDED localStorage.setItem, so when the
storage write fails the exception escapes the handler and updateThemeUI never
runs — the DOM is not updated to the new preference, against the claim that
every selection action swallows the failure and still updates the UI. -/
theorem c7_counterexample :
    TwoButton.toggleManualTheme true { available := false, theme := none }
      { dataTheme := some "dark", dataThemePreference := some "dark",
        themeToggleActive := true, systemToggleActive := false,
        sunHidden := true, moonHidden := false,
        monogramSrc := "monogram-dark-mode.svg",
        favicon := some "/favicon-dark-mode.svg" }
      = Except.error () ∧
    TwoButton.setSystemTheme true { available := false, theme := none }
      { dataTheme := some "dark", dataThemePreference := some "dark",
        themeToggleActive := true, systemToggleActive := false,
        sunHidden := true, moonHidden := false,
        monogramSrc := "monogram-dark-mode.svg",
        favicon := some "/favicon-dark-mode.svg" }
      = Except.error () := by
  exact ⟨rfl, rfl⟩

/-- Claim C7 as amended: in the three-button manager every selection action
(light, dark, system) swallows a failing storage write and still updates the
DOM to the newly selected preference; in the two-button variant the toggle
and system selections use an unguarded localStorage.setItem, so a failing
write propagates out of the handler and the DOM is not updated. -/
theorem c7_storage_failure_amended (env : Option Bool) (s : Bool)
    (storage : Storage) (dom : ThemeManager.Dom) (dom2 : TwoButton.Dom)
    (h : storage.available = false) :
    (ThemeManager.setLightTheme env storage dom
      = (storage, ThemeManager.updateThemeUI env "light" dom) ∧
    (ThemeManager.setLightTheme env storage dom).2.dataThemePreference = some "light") ∧
    (ThemeManager.setDarkTheme env storage dom
      = (storage, ThemeManager.updateThemeUI env "dark" dom) ∧
    (ThemeManager.setDarkTheme env storage dom).2.dataThemePreference = some "dark") ∧
    (ThemeManager.setSystemTheme env storage dom
      = (storage, ThemeManager.updateThemeUI env "system" dom) ∧
    (ThemeManager.setSystemTheme env storage dom).2.dataThemePreference = some "system") ∧
    TwoButton.toggleManualTheme s storage dom2 = Except.error () ∧
    TwoButton.setSystemTheme s storage dom2 = Except.error () := by
  refine ⟨⟨?_, ?_⟩, ⟨?_, ?_⟩, ⟨?_, ?_⟩, ?_, ?_⟩ <;>
    simp [ThemeManager.setLightTheme, ThemeManager.setDarkTheme,
      ThemeManager.setSystemTheme, ThemeManager.safeLocalStorageSet, h,
      TwoButton.toggleManualTheme, TwoButton.setSystemTheme,
      TwoButton.localStorageSetItem, tm_updateThemeUI_dataThemePreference]

/-- Witness for C7 as amended, with unavailable storage at a concrete state. -/
theorem c7_storage_failure_amended_witness :
    ({ available := false, theme := none } : Storage).available = false ∧
    (ThemeManager.setLightTheme (some true) { available := false, theme := none }
      { dataTheme := some "dark", dataThemePreference := some "dark",
        lightActive := false, systemActive := false, darkActive := true,
        monogramSrc := "monogram-dark-mode.svg",
        favicon := some "/favicon-dark-mode.svg" }).2.dataThemePreference
      = some "light" :=
  ⟨rfl,
    (c7_storage_failure_amended (some true) true
      { available := false, theme := none }
      { dataTheme := some "dark", dataThemePreference := some "dark",
        lightActive := false, systemActive := false, darkActive := true,
        monogramSrc := "monogram-dark-mode.svg",
        favicon := some "/favicon-dark-mode.svg" }
      { dataTheme := some "dark", dataThemePreference := some "dark",
        themeToggleActive := true, systemToggleActive := false,
        sunHidden := true, moonHidden := false,
        monogramSrc := "monogram-dark-mode.svg",
        favicon := some "/favicon-dark-mode.svg" }
      rfl).1.2⟩

/-- Claim C8 counterexample: the two-button variant reads the preference from
the document attribute alone. With the attribute unset and the persisted
value "dark" available in storage, the claimed precedence yields "dark", but
the two-button initialization (whose getCurrentPreference consults no
storage) applies preference "system". -/
theorem c8_counterexample :
    specInitPreference none
      (ThemeManager.safeLocalStorageGet { available := true, theme := some "dark" })
      = "dark" ∧
    (TwoButton.initializeThemeManager true
      { themeToggle := true, systemThemeToggle := true, sunIcon := true,
        moonIcon := true, monogram := true }
      { dataTheme := some "dark", dataThemePreference := none,
        themeToggleActive := false, systemToggleActive := false,
        sunHidden := true, moonHidden := false,
        monogramSrc := "monogram-dark-mode.svg",
        favicon := some "/favicon-dark-mode.svg" }).dom.dataThemePreference
      = some "system" ∧
    ("system" : String) ≠ "dark" := by
  decide

/-- Claim C8 as amended: in the three-button manager a successful
initialization reads the preference with precedence document attribute if set,
else the persisted value, else "system", applies updateThemeUI once with it
and attaches the listeners; the two-button variant reads only the document
attribute (the spec precedence with no stored value) — it has no storage
fallback. -/
theorem c8_init_precedence_amended (b : Bool) (storage : Storage)
    (p : ThemeManager.Presence) (dom : ThemeManager.Dom) (dom2 : TwoButton.Dom)
    (hp : p.lightThemeButton = true ∧ p.systemThemeButton = true ∧
      p.darkThemeButton = true ∧ p.monogram = true) :
    ThemeManager.getCurrentPreference dom storage
      = specInitPreference dom.dataThemePreference
          (ThemeManager.safeLocalStorageGet storage) ∧
    (ThemeManager.initializeThemeManager (some b) storage p dom).dom
      = ThemeManager.updateThemeUI (some b)
          (ThemeManager.getCurrentPreference dom storage) dom ∧
    (ThemeManager.initializeThemeManager (some b) storage p dom).consoleError = none ∧
    (ThemeManager.initializeThemeManager (some b) storage p dom).listenersAttached = true ∧
    TwoButton.getCurrentPreference dom2
      = specInitPreference dom2.dataThemePreference none := by
  rcases p with ⟨pa, pb, pc, pd⟩
  obtain ⟨h1, h2, h3, h4⟩ := hp
  subst h1
  subst h2
  subst h3
  subst h4
  exact ⟨rfl, rfl, rfl, rfl, rfl⟩

/-- Witness for C8 as amended at a concrete state whose attribute is unset
and whose storage holds "dark". -/
theorem c8_init_precedence_amended_witness :
    (({ lightThemeButton := true, systemThemeButton := true, darkThemeButton := true, monogram := true } : ThemeManager.Presence).lightThemeButton = true ∧
      ({ lightThemeButton := true, systemThemeButton := true, darkThemeButton := true, monogram := true } : ThemeManager.Presence).systemThemeButton = true ∧
      ({ lightThemeButton := true, systemThemeButton := true, darkThemeButton := true, monogram := true } : ThemeManager.Presence).darkThemeButton = true ∧
      ({ lightThemeButton := true, systemThemeButton := true, darkThemeButton := true, monogram := true } : ThemeManager.Presence).monogram = true) ∧
    ThemeManager.getCurrentPreference
      { dataTheme := some "dark", dataThemePreference := none,
        lightActive := false, systemActive := false, darkActive := true,
        monogramSrc := "monogram-dark-mode.svg",
        favicon := some "/favicon-dark-mode.svg" }
      { available := true, theme := some "dark" }
      = specInitPreference none
          (ThemeManager.safeLocalStorageGet { available := true, theme := some "dark" }) :=
  ⟨⟨rfl, rfl, rfl, rfl⟩,
    (c8_init_precedence_amended false { available := true, theme := some "dark" }
      { lightThemeButton := true, systemThemeButton := true,
        darkThemeButton := true, monogram := true }
      { dataTheme := some "dark", dataThemePreference := none,
        lightActive := false, systemActive := false, darkActive := true,
        monogramSrc := "monogram-dark-mode.svg",
        favicon := some "/favicon-dark-mode.svg" }
      { dataTheme := none, dataThemePreference := none,
        themeToggleActive := false, systemToggleActive := false,
        sunHidden := false, moonHidden := false, monogramSrc := "",
        favicon := none }
      ⟨rfl, rfl, rfl, rfl⟩).1⟩

/-- Claim C9 counterexample: the favicon link is not part of the required
element set. With every required element present but the favicon link absent
from the DOM, initialization succeeds quietly (no error logged, listeners
attached); and even when every required element is missing, the reported
missing-element list never names the favicon. -/
theorem c9_counterexample :
    (ThemeManager.initializeThemeManager (some true)
      { available := true, theme := none }
      { lightThemeButton := true, systemThemeButton := true,
        darkThemeButton := true, monogram := true }
      { dataTheme := some "dark", dataThemePreference := some "dark",
        lightActive := false, systemActive := false, darkActive := true,
        monogramSrc := "monogram-dark-mode.svg", favicon := none }).consoleError
      = none ∧
    (ThemeManager.initializeThemeManager (some true)
      { available := true, theme := none }
      { lightThemeButton := true, systemThemeButton := true,
        darkThemeButton := true, monogram := true }
      { dataTheme := some "dark", dataThemePreference := some "dark",
        lightActive := false, systemActive := false, darkActive := true,
        monogramSrc := "monogram-dark-mode.svg", favicon := none }).listenersAttached
      = true ∧
    "favicon" ∉ ThemeManager.missingElements
      { lightThemeButton := false, systemThemeButton := false,
        darkThemeButton := false, monogram := false } := by
  decide

/-- Claim C9 as amended: the required element set is the three theme buttons
and the monogram only; the favicon link is never among the reported missing
elements, it is looked up separately at each UI update, and when it is absent
initialization still succeeds, updateFavicon silently does nothing, and the
link stays absent. -/
theorem c9_favicon_not_required_amended (b : Bool) (storage : Storage)
    (p : ThemeManager.Presence) (dom : ThemeManager.Dom)
    (hfav : dom.favicon = none)
    (hp : p.lightThemeButton = true ∧ p.systemThemeButton = true ∧
      p.darkThemeButton = true ∧ p.monogram = true) :
    (∀ q : ThemeManager.Presence, "favicon" ∉ ThemeManager.missingElements q) ∧
    (ThemeManager.initializeThemeManager (some b) storage p dom).consoleError = none ∧
    (ThemeManager.initializeThemeManager (some b) storage p dom).listenersAttached = true ∧
    (ThemeManager.initializeThemeManager (some b) storage p dom).dom.favicon = none ∧
    ThemeManager.updateFavicon "light" dom = dom ∧
    ThemeManager.updateFavicon "dark" dom = dom := by
  rcases p with ⟨pa, pb, pc, pd⟩
  obtain ⟨h1, h2, h3, h4⟩ := hp
  subst h1
  subst h2
  subst h3
  subst h4
  refine ⟨?_, rfl, rfl, ?_, ?_, ?_⟩
  · intro q
    rcases q with ⟨qa, qb, qc, qd⟩
    cases qa <;> cases qb <;> cases qc <;> cases qd <;> decide
  · exact tm_updateThemeUI_favicon_none (some b) _ dom hfav
  · simp [ThemeManager.updateFavicon, hfav]
  · simp [ThemeManager.updateFavicon, hfav]

/-- Witness for C9 as amended with the favicon link absent. -/
theorem c9_favicon_not_required_amended_witness :
    ({ dataTheme := some "dark", dataThemePreference := some "dark",
       lightActive := false, systemActive := false, darkActive := true,
       monogramSrc := "monogram-dark-mode.svg",
       favicon := none } : ThemeManager.Dom).favicon = none ∧
    (ThemeManager.initializeThemeManager (some false)
      { available := true, theme := none }
      { lightThemeButton := true, systemThemeButton := true,
        darkThemeButton := true, monogram := true }
      { dataTheme := some "dark", dataThemePreference := some "dark",
        lightActive := false, systemActive := false, darkActive := true,
        monogramSrc := "monogram-dark-mode.svg",
        favicon := none }).dom.favicon = none :=
  ⟨rfl,
    (c9_favicon_not_required_amended false { available := true, theme := none }
      { lightThemeButton := true, systemThemeButton := true,
        darkThemeButton := true, monogram := true }
      { dataTheme := some "dark", dataThemePreference := some "dark",
        lightActive := false, systemActive := false, darkActive := true,
        monogramSrc := "monogram-dark-mode.svg", favicon := none }
      rfl ⟨rfl, rfl, rfl, rfl⟩).2.2.2.1⟩
